import Mathlib

/-!
Shallow embedding of the Velra market-data worker (`src/backend_worker.py`)
and of the `/data.json` route of the HTTP server (`src/server.py`).

Python JSON values are modelled by the inductive type `JSON`; Python dicts
are association lists that preserve insertion order and have unique keys
(which is what `json.load` produces and what the worker writes), so lookup
returns the first match and assignment replaces the first match in place or
appends.  Numeric payloads relevant to the claims are integers
(`schema_version` and the impact scores); float values only pass through
the worker opaquely and are not constructed by any modelled operation.

Fallible Python code is modelled with `Except String`: a raised exception
becomes `.error msg` where `msg` stands for `str(e)`.  The external Gemini
call together with `json.loads(response.text)` is one opaque input of type
`Except String JSON` (either a raised network/parse failure or the parsed
response).
-/

inductive JSON where
  | null : JSON
  | bool (b : Bool) : JSON
  | num (n : Int) : JSON
  | str (s : String) : JSON
  | arr (items : List JSON) : JSON
  | obj (fields : List (String × JSON)) : JSON

/-- Python dict lookup on an ordered association list: first match wins. -/
def lookupField : List (String × JSON) → String → Option JSON
  | [], _ => none
  | (k, v) :: rest, key => if k = key then some v else lookupField rest key

/-- Python dict assignment `d[key] = v`: replace the first binding of `key`
in place, or append a new binding at the end (insertion order). -/
def setField : List (String × JSON) → String → JSON → List (String × JSON)
  | [], key, v => [(key, v)]
  | (k, w) :: rest, key, v =>
    if k = key then (k, v) :: rest else (k, w) :: setField rest key v

/-- Python truthiness of a JSON value (`if current_data:`): `None`, `False`,
`0`, `""`, `[]` and `{}` are falsy. -/
def jsonTruthy : JSON → Bool
  | .null => false
  | .bool b => b
  | .num n => n != 0
  | .str s => s != ""
  | .arr items => !items.isEmpty
  | .obj fields => !fields.isEmpty

/-- Total model of `x.get(key, default)` for values known to be dicts;
on a non-dict it returns the default (callers guard that case). -/
def objGetD (j : JSON) (key : String) (dflt : JSON) : JSON :=
  match j with
  | .obj fields => (lookupField fields key).getD dflt
  | _ => dflt

/-- Raising model of `x.get(key, default)`: on a non-dict Python raises
`AttributeError`. -/
def pyGetD (j : JSON) (key : String) (dflt : JSON) : Except String JSON :=
  match j with
  | .obj fields => .ok ((lookupField fields key).getD dflt)
  | _ => .error "AttributeError: object has no attribute get"

/-- Field lookup on a JSON document. -/
def docField (doc : JSON) (key : String) : Option JSON :=
  match doc with
  | .obj fields => lookupField fields key
  | _ => none

/-! ### Feed merger (backend_worker.py lines 95-99, 111)

`impact_score = {"HIGH": 3, "MEDIUM": 2, "LOW": 1}` and the sort key
`lambda x: (impact_score.get(x.get("impact", "LOW"), 0), x.get("time", "00:00"))`
with `reverse=True`.  Python `list.sort` is a stable descending sort by the
key; any stable sort by the same total preorder produces the same list, and
`List.insertionSort` is such a stable sort, so the model below computes
exactly the list Python computes.  Python compares the `time` components as
strings by code point, which `strLe` reproduces; items whose `time` value is
present but not a string could make Python raise `TypeError` during a
comparison, so the worker model only merges lists whose items pass
`itemOk`. -/

/-- Score of the `impact` value: the dict lookup `impact_score.get(v, 0)`
applied to a string (any non-string hashable value misses the dict and
scores 0). -/
def impactScoreStr (s : String) : Int :=
  if s = "HIGH" then 3 else if s = "MEDIUM" then 2 else if s = "LOW" then 1 else 0

/-- The value `x.get("impact", "LOW")` of an item. -/
def impactValue (x : JSON) : JSON :=
  match x with
  | .obj fields => (lookupField fields "impact").getD (.str "LOW")
  | _ => .str "LOW"

/-- Primary sort key `impact_score.get(x.get("impact", "LOW"), 0)`. -/
def impactScore (x : JSON) : Int :=
  match impactValue x with
  | .str s => impactScoreStr s
  | _ => 0

/-- Secondary sort key `x.get("time", "00:00")` (string items only; see
`itemOk`). -/
def timeValue (x : JSON) : String :=
  match x with
  | .obj fields =>
    match lookupField fields "time" with
    | some (.str s) => s
    | _ => "00:00"
  | _ => "00:00"

/-- The composite sort key of one livewire item. -/
def itemKey (x : JSON) : Int × String := (impactScore x, timeValue x)

/-- Code-point comparison of char lists, matching Python string
comparison. -/
def charListLe : List Char → List Char → Bool
  | [], _ => true
  | _ :: _, [] => false
  | a :: as, b :: bs =>
    if a.toNat < b.toNat then true
    else if b.toNat < a.toNat then false
    else charListLe as bs

/-- Python `<=` on strings: lexicographic by code point. -/
def strLe (a b : String) : Bool := charListLe a.data b.data

/-- Python `<=` on the composite key tuples `(int, str)`. -/
def keyLe (a b : Int × String) : Bool :=
  if a.1 < b.1 then true
  else if b.1 < a.1 then false
  else strLe a.2 b.2

/-- The ordering used by the stable descending sort: `x` comes no later
than `y` when the key of `x` is at least the key of `y`. -/
def wireBefore (x y : JSON) : Prop := keyLe (itemKey y) (itemKey x) = true

instance : DecidableRel wireBefore := fun x y =>
  inferInstanceAs (Decidable (keyLe (itemKey y) (itemKey x) = true))

theorem charListLe_total : ∀ a b : List Char, charListLe a b = true ∨ charListLe b a = true
  | [], _ => Or.inl rfl
  | _ :: _, [] => Or.inr rfl
  | x :: xs, y :: ys => by
    simp only [charListLe]
    rcases Nat.lt_trichotomy x.toNat y.toNat with h | h | h
    · left; rw [if_pos h]
    · rw [if_neg (by omega), if_neg (by omega), if_neg (by omega), if_neg (by omega)]
      exact charListLe_total xs ys
    · right; rw [if_pos h]

theorem charListLe_trans :
    ∀ a b c : List Char, charListLe a b = true → charListLe b c = true →
      charListLe a c = true
  | [], _, _, _, _ => rfl
  | _ :: _, [], _, h1, _ => by simp [charListLe] at h1
  | _ :: _, _ :: _, [], _, h2 => by simp [charListLe] at h2
  | x :: xs, y :: ys, z :: zs, h1, h2 => by
    simp only [charListLe] at h1 h2 ⊢
    rcases Nat.lt_trichotomy x.toNat y.toNat with hxy | hxy | hxy
    · rcases Nat.lt_trichotomy y.toNat z.toNat with hyz | hyz | hyz
      · rw [if_pos (by omega)]
      · rw [if_pos (by omega)]
      · rw [if_neg (by omega), if_pos hyz] at h2
        exact absurd h2 (by simp)
    · rcases Nat.lt_trichotomy y.toNat z.toNat with hyz | hyz | hyz
      · rw [if_pos (by omega)]
      · rw [if_neg (by omega), if_neg (by omega)] at h1 h2 ⊢
        exact charListLe_trans xs ys zs h1 h2
      · rw [if_neg (by omega), if_pos hyz] at h2
        exact absurd h2 (by simp)
    · rw [if_neg (by omega), if_pos hxy] at h1
      exact absurd h1 (by simp)

theorem strLe_total (a b : String) : strLe a b = true ∨ strLe b a = true :=
  charListLe_total a.data b.data

theorem strLe_trans {a b c : String} (h1 : strLe a b = true) (h2 : strLe b c = true) :
    strLe a c = true :=
  charListLe_trans a.data b.data c.data h1 h2

theorem keyLe_total (a b : Int × String) : keyLe a b = true ∨ keyLe b a = true := by
  unfold keyLe
  rcases lt_trichotomy a.1 b.1 with h | h | h
  · left; rw [if_pos h]
  · rw [if_neg (by omega), if_neg (by omega), if_neg (by omega), if_neg (by omega)]
    exact strLe_total a.2 b.2
  · right; rw [if_pos h]

theorem keyLe_trans {a b c : Int × String} (h1 : keyLe a b = true)
    (h2 : keyLe b c = true) : keyLe a c = true := by
  unfold keyLe at h1 h2 ⊢
  rcases lt_trichotomy a.1 b.1 with hab | hab | hab
  · rcases lt_trichotomy b.1 c.1 with hbc | hbc | hbc
    · rw [if_pos (by omega)]
    · rw [if_pos (by omega)]
    · rw [if_neg (by omega), if_pos hbc] at h2
      exact absurd h2 (by simp)
  · rcases lt_trichotomy b.1 c.1 with hbc | hbc | hbc
    · rw [if_pos (by omega)]
    · rw [if_neg (by omega), if_neg (by omega)] at h1 h2 ⊢
      exact strLe_trans h1 h2
    · rw [if_neg (by omega), if_pos hbc] at h2
      exact absurd h2 (by simp)
  · rw [if_neg (by omega), if_pos hab] at h1
    exact absurd h1 (by simp)

instance : IsTotal JSON wireBefore :=
  ⟨fun x y => keyLe_total (itemKey y) (itemKey x)⟩

instance : IsTrans JSON wireBefore :=
  ⟨fun _ _ _ h1 h2 => keyLe_trans h2 h1⟩

/-- The merge of backend_worker.py lines 96-99 and 111: concatenate the
freshly generated items in front of the previously stored ones, stable-sort
descending by `(impact score, time string)`, keep the first 10. -/
def mergeLivewire (newItems oldItems : List JSON) : List JSON :=
  (List.insertionSort wireBefore (newItems ++ oldItems)).take 10

/-! ### Generation client and failure handling (backend_worker.py 15-122) -/

/-- Process environment: the two accepted credential variables
(`GEMINI_API_KEY`, `GOOGLE_API_KEY`), each absent or a string. -/
structure GenEnv where
  geminiKey : Option String
  googleKey : Option String

/-- Python truthiness of `os.environ.get(...)`: set and non-empty. -/
def envStrTruthy : Option String → Bool
  | some s => s != ""
  | none => false

/-- Python `a or b` on the two lookups: the first operand if truthy, else
the second. -/
def pyOrEnv (a b : Option String) : Option String :=
  if envStrTruthy a then a else b

/-- Model of `get_api_client` (lines 15-20): the key the constructed client
would hold, or `none` when `if not api_key` fires and the function returns
`None`. -/
def get_api_client (env : GenEnv) : Option String :=
  let apiKey := pyOrEnv env.geminiKey env.googleKey
  if envStrTruthy apiKey then apiKey else none

/-- State of the `data.json` file: absent, present but unparseable, or a
parsed document. -/
inductive DiskState where
  | absent : DiskState
  | invalid (raw : String) : DiskState
  | valid (doc : JSON) : DiskState

/-- Model of `load_data` (lines 28-35): `None` when the file is missing or
fails to parse. -/
def load_data : DiskState → Option JSON
  | .absent => none
  | .invalid _ => none
  | .valid doc => some doc

/-- The assignment `item["time"] = now_wib.strftime("%H:%M")`; raises
`TypeError` when the element is not a dict. -/
def stampTime (nowHM : String) : JSON → Except String JSON
  | .obj fields => .ok (.obj (setField fields "time" (.str nowHM)))
  | _ => .error "TypeError: item does not support item assignment"

/-- The loop `for item in new_news: item["time"] = ...`; raises unless
`new_news` is a list of dicts. -/
def stampTimes (nowHM : String) : JSON → Except String (List JSON)
  | .arr items => items.mapM (stampTime nowHM)
  | _ => .error "TypeError: livewire value is not a list of dicts"

/-- The expression `current_data.get("livewire", []) if current_data else []`
followed by the `+` concatenation requirement that the value be a list. -/
def loadOldWire : Option JSON → Except String (List JSON)
  | none => .ok []
  | some c =>
    if jsonTruthy c then
      match c with
      | .obj fields =>
        match (lookupField fields "livewire").getD (.arr []) with
        | .arr items => .ok items
        | _ => .error "TypeError: can only concatenate list to list"
      | _ => .error "AttributeError: object has no attribute get"
    else .ok []

/-- A combined item is orderable by the sort key exactly when it is a dict
whose `impact` value (if any) is hashable and whose `time` value (if any)
is a string; otherwise computing or comparing keys raises `TypeError`. -/
def itemOk (x : JSON) : Bool :=
  match x with
  | .obj fields =>
    (match lookupField fields "impact" with
     | some (.arr _) => false
     | some (.obj _) => false
     | _ => true)
      && (match lookupField fields "time" with
          | some (.str _) => true
          | none => true
          | some _ => false)
  | _ => false

/-- Key extraction over the combined list (`combined_wire.sort(key=...)`)
raises on the first item that is not orderable. -/
def checkItems (items : List JSON) : Except String Unit :=
  if items.all itemOk then .ok () else .error "TypeError: unorderable livewire item"

/-- The body of the `try` block of `generate_market_data` (lines 88-114)
after the external call has produced parsed JSON `aiData`: stamp the new
items with the generation time, merge with the stored livewire, and build
`final_data`.  The returned document is what `atomic_write` persists. -/
def tryBody (nowIso nowHM : String) (aiData : JSON) (currentData : Option JSON) :
    Except String JSON := do
  let rawNew ← pyGetD aiData "livewire" (.arr [])
  let newNews ← stampTimes nowHM rawNew
  let oldWire ← loadOldWire currentData
  let _ ← checkItems (newNews ++ oldWire)
  pure (.obj
    [("schema_version", .num 1),
     ("generated_at_wib", .str nowIso),
     ("status", .obj
       [("ok", .bool true),
        ("last_error", .null),
        ("last_success_at_wib", .str nowIso)]),
     ("briefings", objGetD aiData "briefings" (.obj [])),
     ("indices", objGetD aiData "indices" (.obj [])),
     ("livewire", .arr (mergeLivewire newNews oldWire))])

/-- Everything the `try` block can raise: the external call plus
`json.loads` (the `api` input), then the merge pipeline. -/
def genAttempt (nowIso nowHM : String) (api : Except String JSON)
    (currentData : Option JSON) : Except String JSON := do
  let aiData ← api
  tryBody nowIso nowHM aiData currentData

/-- The two assignments of the `except` handler (lines 120-121):
`current_data["status"]["ok"] = False` and
`current_data["status"]["last_error"] = str(e)`.  Python raises `KeyError`
when `"status"` is missing and `TypeError` when the container is not a
dict; that exception is NOT caught (it occurs inside the handler). -/
def setStatusFailure (cur : JSON) (msg : String) : Except String JSON :=
  match cur with
  | .obj fields =>
    match lookupField fields "status" with
    | some (.obj st) =>
      .ok (.obj (setField fields "status"
        (.obj (setField (setField st "ok" (.bool false)) "last_error" (.str msg)))))
    | some _ => .error "TypeError: status value does not support item assignment"
    | none => .error "KeyError: status"
  | _ => .error "TypeError: snapshot does not support item assignment"

/-- Observable outcome of one call to `generate_market_data`. -/
inductive GenOutcome where
  | noClient : GenOutcome
  | wrote (doc : JSON) : GenOutcome
  | failedWrote (doc : JSON) : GenOutcome
  | failedNoWrite (msg : String) : GenOutcome
  | crashed (msg : String) : GenOutcome

/-- The `except` handler (lines 117-122): when a prior truthy document was
loaded, rewrite its status fields and persist it; an exception raised by the
rewrite itself escapes the function. -/
def handleFailure (currentData : Option JSON) (msg : String) : GenOutcome :=
  match currentData with
  | some cur =>
    if jsonTruthy cur then
      match setStatusFailure cur msg with
      | .ok updated => .failedWrote updated
      | .error m => .crashed m
    else .failedNoWrite msg
  | none => .failedNoWrite msg

/-- Model of `generate_market_data` (lines 37-122).  `currentData` is the
result of `load_data()`, `nowIso`/`nowHM` the two renderings of `now_wib`,
and `api` the outcome of the external call.  `crashed` records an
exception escaping the function (raised inside the `except` handler). -/
def generate_market_data (env : GenEnv) (currentData : Option JSON)
    (nowIso nowHM : String) (api : Except String JSON) : GenOutcome :=
  match get_api_client env with
  | none => .noClient
  | some _ =>
    match genAttempt nowIso nowHM api currentData with
    | .ok finalDoc => .wrote finalDoc
    | .error msg => handleFailure currentData msg

/-- Effect of the outcome on the data file (`atomic_write` replaces the
whole document; every other outcome leaves the file untouched). -/
def applyOutcome (disk : DiskState) : GenOutcome → DiskState
  | .wrote doc => .valid doc
  | .failedWrote doc => .valid doc
  | .noClient => disk
  | .failedNoWrite _ => disk
  | .crashed _ => disk

/-- One full generation attempt against the store: load, generate, write. -/
def runGeneration (env : GenEnv) (disk : DiskState) (nowIso nowHM : String)
    (api : Except String JSON) : DiskState × GenOutcome :=
  (applyOutcome disk (generate_market_data env (load_data disk) nowIso nowHM api),
   generate_market_data env (load_data disk) nowIso nowHM api)

/-! ### Scheduler (backend_worker.py 124-150) -/

inductive StartupAction where
  | generate : StartupAction
  | enterLoop : StartupAction
  | exitProcess : StartupAction
  deriving DecidableEq

/-- Lines 130-134: `stale` is computed only when the file exists and its
modification-time age exceeds 3600 seconds. -/
def startupStale (fileExists : Bool) (age : Rat) : Bool :=
  fileExists && decide (age > 3600)

/-- The startup sequence of `__main__` (lines 129-144): one conditional
generation, then either exit (`--once`) or the periodic loop. -/
def startupActions (fileExists : Bool) (age : Rat) (once : Bool) :
    List StartupAction :=
  (if !fileExists || startupStale fileExists age then [.generate] else [])
    ++ (if once then [.exitProcess] else [.enterLoop])

/-- One wake-up of the periodic loop (lines 145-150): at minute 0 it runs a
generation; the loop has no exception handler, so an exception escaping
`generate_market_data` terminates the process (`.error`). -/
def loopIteration (env : GenEnv) (disk : DiskState) (minute : Nat)
    (nowIso nowHM : String) (api : Except String JSON) :
    Except String DiskState :=
  if minute = 0 then
    match runGeneration env disk nowIso nowHM api with
    | (_, .crashed m) => .error m
    | (d, _) => .ok d
  else .ok disk

/-- The loaded document (if any) can survive the failure handler: either it
is falsy (handler skipped) or it is a dict with a dict-valued `status`. -/
def statusRewriteSafe : Option JSON → Bool
  | none => true
  | some cur =>
    !jsonTruthy cur
      || (match docField cur "status" with
          | some (.obj _) => true
          | _ => false)

/-! ### HTTP server, route `/data.json` (server.py 39-54) -/

inductive RespBody where
  | jsonBody (j : JSON) : RespBody
  | fileBody (d : DiskState) : RespBody

structure HttpResponse where
  status : Nat
  body : RespBody
  headers : List (String × String)

/-- Model of `os.path.join(cwd, name)` for a cwd without trailing slash. -/
def pathJoin (a b : String) : String := a ++ "/" ++ b

/-- The 404 body of the `data` route. -/
def dataRouteMissingBody (cwd : String) : JSON :=
  .obj
    [("error", .str "Data file not found on server"),
     ("missing_file", .bool true),
     ("path_checked", .str (pathJoin cwd "data.json")),
     ("suggestion", .str "Wait for backend_worker.py to generate the initial snapshot.")]

/-- Model of the `data` route: 404 JSON when `os.path.exists` is false,
otherwise the file is served (whatever its content) with caching
disabled. -/
def dataRoute (disk : DiskState) (cwd : String) : HttpResponse :=
  match disk with
  | .absent =>
    { status := 404, body := .jsonBody (dataRouteMissingBody cwd), headers := [] }
  | d =>
    { status := 200, body := .fileBody d,
      headers :=
        [("Cache-Control", "no-cache, no-store, must-revalidate"),
         ("Pragma", "no-cache"),
         ("Expires", "0")] }

/-- Field lookup in a JSON response body. -/
def bodyField (r : HttpResponse) (key : String) : Option JSON :=
  match r.body with
  | .jsonBody (.obj fields) => lookupField fields key
  | _ => none

/-- Header lookup on a response. -/
def headerValue (r : HttpResponse) (key : String) : Option String :=
  match r.headers.find? (fun p => p.1 = key) with
  | some p => some p.2
  | none => none

/-! ### Helper lemmas about dict update -/

theorem lookupField_setField_same (fields : List (String × JSON)) (key : String)
    (v : JSON) : lookupField (setField fields key v) key = some v := by
  induction fields with
  | nil => simp [setField, lookupField]
  | cons p rest ih =>
    obtain ⟨k, w⟩ := p
    by_cases h : k = key
    · subst h
      simp [setField, lookupField]
    · simp [setField, lookupField, h, ih]

theorem lookupField_setField_ne (fields : List (String × JSON)) (key other : String)
    (v : JSON) (h : other ≠ key) :
    lookupField (setField fields key v) other = lookupField fields other := by
  induction fields with
  | nil =>
    have hko : ¬(key = other) := fun hh => h hh.symm
    simp [setField, lookupField, hko]
  | cons p rest ih =>
    obtain ⟨k, w⟩ := p
    by_cases hk : k = key
    · subst hk
      have hko : ¬(k = other) := fun hh => h hh.symm
      simp [setField, lookupField, hko]
    · by_cases ho : k = other
      · simp [setField, lookupField, hk, ho, h]
      · simp [setField, lookupField, hk, ho, ih]

/-! ### Helper lemmas about the generation path -/

theorem handleFailure_ne_wrote (currentData : Option JSON) (msg : String)
    (doc : JSON) : handleFailure currentData msg ≠ .wrote doc := by
  unfold handleFailure
  rcases currentData with _ | cur
  · simp
  · by_cases ht : jsonTruthy cur
    · simp only [ht, if_pos]
      cases setStatusFailure cur msg <;> simp
    · simp [ht]

theorem setStatusFailure_ok_of_safe (cur : JSON) (msg : String)
    (ht : jsonTruthy cur = true) (hsafe : statusRewriteSafe (some cur) = true) :
    ∃ u, setStatusFailure cur msg = .ok u := by
  simp only [statusRewriteSafe, ht, Bool.not_true, Bool.false_or] at hsafe
  split at hsafe
  next st heq =>
    cases cur with
    | obj fields =>
      simp only [docField] at heq
      exact ⟨.obj (setField fields "status"
          (.obj (setField (setField st "ok" (.bool false)) "last_error" (.str msg)))),
        by simp [setStatusFailure, heq]⟩
    | null => simp [docField] at heq
    | bool b => simp [docField] at heq
    | num n => simp [docField] at heq
    | str s => simp [docField] at heq
    | arr items => simp [docField] at heq
  next heq => simp at hsafe

theorem genAttempt_ok (nowIso nowHM : String) (api : Except String JSON)
    (currentData : Option JSON) (finalDoc : JSON)
    (h : genAttempt nowIso nowHM api currentData = .ok finalDoc) :
    ∃ aiData, api = .ok aiData ∧
      tryBody nowIso nowHM aiData currentData = .ok finalDoc := by
  unfold genAttempt at h
  cases api with
  | error e => simp [Bind.bind, Except.bind] at h
  | ok aiData =>
    refine ⟨aiData, rfl, ?_⟩
    simpa only [Bind.bind, Except.bind] using h

theorem tryBody_livewire (nowIso nowHM : String) (aiData : JSON)
    (currentData : Option JSON) (finalDoc : JSON)
    (h : tryBody nowIso nowHM aiData currentData = .ok finalDoc) :
    ∃ newNews oldWire : List JSON,
      docField finalDoc "livewire" = some (.arr (mergeLivewire newNews oldWire)) := by
  unfold tryBody at h
  simp only [Bind.bind, Except.bind] at h
  split at h
  next err heq1 => simp at h
  next rawNew heq1 =>
    split at h
    next err heq2 => simp at h
    next newNews heq2 =>
      split at h
      next err heq3 => simp at h
      next oldWire heq3 =>
        split at h
        next err heq4 => simp at h
        next u heq4 =>
          simp only [pure, Except.pure, Except.ok.injEq] at h
          refine ⟨newNews, oldWire, ?_⟩
          rw [← h]
          simp [docField, lookupField]

/-! ### Claim theorems -/

def itemA : JSON :=
  .obj [("headline", .str "A"), ("impact", .str "HIGH"), ("time", .str "09:00")]

def itemB : JSON :=
  .obj [("headline", .str "B"), ("impact", .str "LOW"), ("time", .str "23:00")]

def itemC : JSON :=
  .obj [("headline", .str "C"), ("impact", .str "HIGH"), ("time", .str "10:00")]

def itemNewTie : JSON :=
  .obj [("headline", .str "N"), ("impact", .str "HIGH"), ("time", .str "09:00")]

def itemOldTie : JSON :=
  .obj [("headline", .str "O"), ("impact", .str "HIGH"), ("time", .str "09:00")]

/-- C2: the merge concatenates new items before old items, stable-sorts the
combined list descending by the composite key (impact HIGH=3, MEDIUM=2,
LOW=1, unrecognized=0; ties broken by the time string, later first) and
truncates to 10; on A(HIGH,09:00), B(LOW,23:00), C(HIGH,10:00) the result
is C, A, B, and for equal keys a new item stays before an old one. -/
theorem merge_sorts_desc_and_truncates :
    (∀ newItems oldItems : List JSON,
        List.Sorted wireBefore (mergeLivewire newItems oldItems) ∧
        (mergeLivewire newItems oldItems).length
          = min 10 (newItems.length + oldItems.length) ∧
        ∃ dropped : List JSON,
          (newItems ++ oldItems).Perm (mergeLivewire newItems oldItems ++ dropped)) ∧
    impactScoreStr "HIGH" = 3 ∧ impactScoreStr "MEDIUM" = 2 ∧
    impactScoreStr "LOW" = 1 ∧
    (∀ s : String, s ≠ "HIGH" → s ≠ "MEDIUM" → s ≠ "LOW" → impactScoreStr s = 0) ∧
    mergeLivewire [itemA, itemB, itemC] [] = [itemC, itemA, itemB] ∧
    mergeLivewire [itemNewTie] [itemOldTie] = [itemNewTie, itemOldTie] := by
  refine ⟨fun newItems oldItems => ⟨?_, ?_, ?_⟩, rfl, rfl, rfl, ?_, rfl, rfl⟩
  · exact List.Pairwise.sublist (List.take_sublist _ _)
      (List.sorted_insertionSort wireBefore _)
  · rw [mergeLivewire, List.length_take, List.length_insertionSort, List.length_append]
  · refine ⟨(List.insertionSort wireBefore (newItems ++ oldItems)).drop 10, ?_⟩
    rw [mergeLivewire, List.take_append_drop]
    exact (List.perm_insertionSort wireBefore _).symm
  · intro s h1 h2 h3
    simp [impactScoreStr, h1, h2, h3]

theorem merge_sorts_desc_and_truncates_witness :
    impactScoreStr "BANANA" = 0 ∧
    mergeLivewire [itemA, itemB, itemC] [] = [itemC, itemA, itemB] :=
  ⟨merge_sorts_desc_and_truncates.2.2.2.2.1 "BANANA" (by decide) (by decide) (by decide),
   merge_sorts_desc_and_truncates.2.2.2.2.2.1⟩

/-- C3: for every pair of input lists the merged livewire has length at
most 10, and the livewire stored in any successfully written snapshot is a
merge result of length at most 10. -/
theorem livewire_bounded_after_merge (newItems oldItems : List JSON)
    (env : GenEnv) (currentData : Option JSON) (nowIso nowHM : String)
    (api : Except String JSON) (finalDoc : JSON)
    (hw : generate_market_data env currentData nowIso nowHM api = .wrote finalDoc) :
    (mergeLivewire newItems oldItems).length ≤ 10 ∧
    ∃ lw : List JSON, docField finalDoc "livewire" = some (.arr lw) ∧ lw.length ≤ 10 := by
  constructor
  · exact List.length_take_le _ _
  · unfold generate_market_data at hw
    split at hw
    next => simp at hw
    next k hc =>
      split at hw
      next doc0 ha =>
        simp only [GenOutcome.wrote.injEq] at hw
        subst hw
        obtain ⟨aiData, hapi, htb⟩ := genAttempt_ok nowIso nowHM api currentData doc0 ha
        obtain ⟨nn, ow, hlv⟩ := tryBody_livewire nowIso nowHM aiData currentData doc0 htb
        exact ⟨mergeLivewire nn ow, hlv, List.length_take_le _ _⟩
      next msg ha => exact absurd hw (handleFailure_ne_wrote currentData msg finalDoc)

def envC3 : GenEnv := ⟨some "k", none⟩

def docC3 : JSON :=
  .obj [("schema_version", .num 1), ("generated_at_wib", .str "T"),
        ("status", .obj [("ok", .bool true), ("last_error", .null),
                         ("last_success_at_wib", .str "T")]),
        ("briefings", .obj []), ("indices", .obj []), ("livewire", .arr [])]

theorem livewire_bounded_after_merge_witness :
    (mergeLivewire [] []).length ≤ 10 ∧
    ∃ lw : List JSON, docField docC3 "livewire" = some (.arr lw) ∧ lw.length ≤ 10 :=
  livewire_bounded_after_merge [] [] envC3 none "T" "09:00" (.ok (.obj [])) docC3 rfl

def itemNoImpact (t : String) : JSON :=
  .obj [("headline", .str "no-impact"), ("time", .str t)]

def itemUnknownImpact (s t : String) : JSON :=
  .obj [("headline", .str "unknown-impact"), ("impact", .str s), ("time", .str t)]

/-- C9: an item with no `impact` field defaults to `"LOW"` and scores 1,
while an item whose `impact` is an unrecognized string scores 0, so at
equal time the field-less item ranks strictly above the unrecognized one
in the merge. -/
theorem absent_impact_outranks_unrecognized (s t : String)
    (h1 : s ≠ "HIGH") (h2 : s ≠ "MEDIUM") (h3 : s ≠ "LOW") :
    impactScore (itemNoImpact t) = 1 ∧
    impactScore (itemUnknownImpact s t) = 0 ∧
    wireBefore (itemNoImpact t) (itemUnknownImpact s t) ∧
    ¬ wireBefore (itemUnknownImpact s t) (itemNoImpact t) ∧
    mergeLivewire [itemUnknownImpact s t, itemNoImpact t] []
      = [itemNoImpact t, itemUnknownImpact s t] := by
  have hks : impactScoreStr s = 0 := by simp [impactScoreStr, h1, h2, h3]
  have hk1 : itemKey (itemNoImpact t) = (1, t) := by
    simp [itemKey, impactScore, impactValue, timeValue, itemNoImpact, lookupField,
      impactScoreStr]
  have hk2 : itemKey (itemUnknownImpact s t) = (0, t) := by
    simp [itemKey, impactScore, impactValue, timeValue, itemUnknownImpact, lookupField, hks]
  have hyes : wireBefore (itemNoImpact t) (itemUnknownImpact s t) := by
    simp [wireBefore, hk1, hk2, keyLe]
  have hno : ¬ wireBefore (itemUnknownImpact s t) (itemNoImpact t) := by
    simp [wireBefore, hk1, hk2, keyLe]
  refine ⟨?_, ?_, hyes, hno, ?_⟩
  · simpa [itemKey] using congrArg Prod.fst hk1
  · simpa [itemKey] using congrArg Prod.fst hk2
  · simp [mergeLivewire, List.insertionSort, List.orderedInsert, hno]

theorem absent_impact_outranks_unrecognized_witness :
    impactScore (itemNoImpact "09:00") = 1 ∧
    impactScore (itemUnknownImpact "BANANA" "09:00") = 0 ∧
    wireBefore (itemNoImpact "09:00") (itemUnknownImpact "BANANA" "09:00") ∧
    ¬ wireBefore (itemUnknownImpact "BANANA" "09:00") (itemNoImpact "09:00") ∧
    mergeLivewire [itemUnknownImpact "BANANA" "09:00", itemNoImpact "09:00"] []
      = [itemNoImpact "09:00", itemUnknownImpact "BANANA" "09:00"] :=
  absent_impact_outranks_unrecognized "BANANA" "09:00" (by decide) (by decide) (by decide)

/-- C1: when a failed generation rewrites a previously loaded snapshot, the
rewrite changes only the status fields: `status.ok` becomes `false` and
`status.last_error` becomes the (non-empty) failure message, while every
other top-level field — briefings (including `briefings.global.title`),
indices, livewire, schema_version, generated_at_wib — and every other
status field keeps its value. -/
theorem failure_rewrite_touches_only_status (env : GenEnv)
    (fields st : List (String × JSON)) (nowIso nowHM : String)
    (api : Except String JSON) (msg : String)
    (hclient : get_api_client env ≠ none)
    (hstatus : lookupField fields "status" = some (.obj st))
    (htruthy : jsonTruthy (.obj fields) = true)
    (hfail : genAttempt nowIso nowHM api (some (.obj fields)) = .error msg)
    (hmsg : msg ≠ "") :
    ∃ ufields ustatus,
      generate_market_data env (some (.obj fields)) nowIso nowHM api
        = .failedWrote (.obj ufields) ∧
      lookupField ufields "status" = some (.obj ustatus) ∧
      lookupField ustatus "ok" = some (.bool false) ∧
      lookupField ustatus "last_error" = some (.str msg) ∧ msg ≠ "" ∧
      (∀ k, k ≠ "status" → lookupField ufields k = lookupField fields k) ∧
      (∀ k, k ≠ "ok" → k ≠ "last_error" →
        lookupField ustatus k = lookupField st k) ∧
      lookupField ufields "briefings" = lookupField fields "briefings" ∧
      lookupField ufields "indices" = lookupField fields "indices" ∧
      lookupField ufields "livewire" = lookupField fields "livewire" ∧
      lookupField ufields "schema_version" = lookupField fields "schema_version" ∧
      lookupField ufields "generated_at_wib"
        = lookupField fields "generated_at_wib" := by
  cases hc : get_api_client env with
  | none => exact absurd hc hclient
  | some k =>
    refine ⟨setField fields "status"
        (.obj (setField (setField st "ok" (.bool false)) "last_error" (.str msg))),
      setField (setField st "ok" (.bool false)) "last_error" (.str msg),
      ?_, lookupField_setField_same fields "status" _, ?_,
      lookupField_setField_same _ "last_error" _, hmsg, ?_, ?_, ?_, ?_, ?_, ?_, ?_⟩
    · simp [generate_market_data, hc, hfail, handleFailure, htruthy,
        setStatusFailure, hstatus]
    · rw [lookupField_setField_ne _ _ _ _ (by decide)]
      exact lookupField_setField_same st "ok" _
    · intro k hk
      exact lookupField_setField_ne fields "status" k _ hk
    · intro k hk1 hk2
      rw [lookupField_setField_ne _ _ _ _ hk2, lookupField_setField_ne _ _ _ _ hk1]
    · exact lookupField_setField_ne fields "status" "briefings" _ (by decide)
    · exact lookupField_setField_ne fields "status" "indices" _ (by decide)
    · exact lookupField_setField_ne fields "status" "livewire" _ (by decide)
    · exact lookupField_setField_ne fields "status" "schema_version" _ (by decide)
    · exact lookupField_setField_ne fields "status" "generated_at_wib" _ (by decide)

def fieldsC1 : List (String × JSON) :=
  [("schema_version", .num 1), ("generated_at_wib", .str "T0"),
   ("status", .obj [("ok", .bool true), ("last_error", .null),
                    ("last_success_at_wib", .str "T0")]),
   ("briefings", .obj [("global", .obj [("title", .str "X")])]),
   ("indices", .obj []), ("livewire", .arr [])]

def stC1 : List (String × JSON) :=
  [("ok", .bool true), ("last_error", .null), ("last_success_at_wib", .str "T0")]

theorem failure_rewrite_touches_only_status_witness :
    ∃ ufields ustatus,
      generate_market_data ⟨some "k", none⟩ (some (.obj fieldsC1)) "T1" "09:00"
          (.error "network down")
        = .failedWrote (.obj ufields) ∧
      lookupField ufields "status" = some (.obj ustatus) ∧
      lookupField ustatus "ok" = some (.bool false) ∧
      lookupField ustatus "last_error" = some (.str "network down") ∧
      "network down" ≠ "" ∧
      (∀ k, k ≠ "status" → lookupField ufields k = lookupField fieldsC1 k) ∧
      (∀ k, k ≠ "ok" → k ≠ "last_error" →
        lookupField ustatus k = lookupField stC1 k) ∧
      lookupField ufields "briefings" = lookupField fieldsC1 "briefings" ∧
      lookupField ufields "indices" = lookupField fieldsC1 "indices" ∧
      lookupField ufields "livewire" = lookupField fieldsC1 "livewire" ∧
      lookupField ufields "schema_version" = lookupField fieldsC1 "schema_version" ∧
      lookupField ufields "generated_at_wib"
        = lookupField fieldsC1 "generated_at_wib" :=
  failure_rewrite_touches_only_status ⟨some "k", none⟩ fieldsC1 stC1 "T1" "09:00"
    (.error "network down") "network down" (by decide) rfl rfl rfl (by decide)

/-- C4: the startup sequence triggers exactly one generation, placed before
the periodic loop, iff the snapshot file is missing or its
modification-time age exceeds 3600 seconds; an age of 3601 seconds
triggers it and an age of 100 seconds does not. -/
theorem startup_trigger_iff_missing_or_stale :
    (∀ (fileExists : Bool) (age : Rat),
        startupActions fileExists age false = [.generate, .enterLoop]
          ↔ (fileExists = false ∨ age > 3600)) ∧
    startupActions true 3601 false = [.generate, .enterLoop] ∧
    startupActions true 100 false = [.enterLoop] := by
  refine ⟨?_, ?_, ?_⟩
  · intro fileExists age
    cases fileExists
    · simp [startupActions, startupStale]
    · by_cases h : age > 3600
      · simp [startupActions, startupStale, h]
      · simp [startupActions, startupStale, h]
  · simp [startupActions, startupStale, show (3601 : Rat) > 3600 by norm_num]
  · simp [startupActions, startupStale, show ¬((100 : Rat) > 3600) by norm_num]

theorem startup_trigger_iff_missing_or_stale_witness :
    startupActions true 3601 false = [.generate, .enterLoop] ∧
    startupActions true 100 false = [.enterLoop] :=
  ⟨startup_trigger_iff_missing_or_stale.2.1, startup_trigger_iff_missing_or_stale.2.2⟩

/-- C5 counterexample: with an API key configured and a prior truthy
snapshot that lacks a `status` dict, a failed generation raises `KeyError`
inside the `except` handler; the exception escapes `generate_market_data`,
and the unguarded scheduler loop iteration terminates with that error
instead of returning to idle. -/
theorem crash_on_snapshot_without_status :
    generate_market_data ⟨some "k", none⟩ (some (.obj [("briefings", .obj [])]))
        "T" "09:00" (.error "boom") = .crashed "KeyError: status" ∧
    loopIteration ⟨some "k", none⟩ (.valid (.obj [("briefings", .obj [])])) 0
        "T" "09:00" (.error "boom") = .error "KeyError: status" :=
  ⟨rfl, rfl⟩

/-- C5 (amended): every failure raised inside the `try` block of a
generation attempt is caught there and the scheduler loop returns to idle,
provided the loaded snapshot — when one exists and is truthy — carries a
dict-valued `status` field (as every snapshot this worker writes does);
only a loaded snapshot without such a `status` structure makes the
status-rewrite raise and escape into the loop. -/
theorem failures_contained_when_status_wellformed (env : GenEnv)
    (disk : DiskState) (minute : Nat) (nowIso nowHM : String)
    (api : Except String JSON)
    (hsafe : statusRewriteSafe (load_data disk) = true) :
    ∃ d, loopIteration env disk minute nowIso nowHM api = .ok d := by
  have hgen : ∀ m,
      generate_market_data env (load_data disk) nowIso nowHM api ≠ .crashed m := by
    intro m
    unfold generate_market_data
    cases get_api_client env with
    | none => simp
    | some k =>
      cases genAttempt nowIso nowHM api (load_data disk) with
      | ok d => simp
      | error msg =>
        unfold handleFailure
        cases hl : load_data disk with
        | none => simp
        | some cur =>
          rw [hl] at hsafe
          by_cases ht : jsonTruthy cur
          · obtain ⟨u, hu⟩ := setStatusFailure_ok_of_safe cur msg ht hsafe
            simp [ht, hu]
          · simp [ht]
  unfold loopIteration
  by_cases hm : minute = 0
  · rw [if_pos hm]
    unfold runGeneration
    cases hg : generate_market_data env (load_data disk) nowIso nowHM api with
    | crashed m => exact absurd hg (hgen m)
    | noClient => exact ⟨_, rfl⟩
    | wrote d => exact ⟨_, rfl⟩
    | failedWrote d => exact ⟨_, rfl⟩
    | failedNoWrite m => exact ⟨_, rfl⟩
  · rw [if_neg hm]
    exact ⟨disk, rfl⟩

def diskC5 : DiskState :=
  .valid (.obj [("briefings", .obj []),
                ("status", .obj [("ok", .bool true), ("last_error", .null)])])

theorem failures_contained_when_status_wellformed_witness :
    ∃ d, loopIteration ⟨some "k", none⟩ diskC5 0 "T" "09:00" (.error "boom") = .ok d :=
  failures_contained_when_status_wellformed ⟨some "k", none⟩ diskC5 0 "T" "09:00"
    (.error "boom") (by decide)

/-- C6: when no prior snapshot is loaded (file missing, or unparseable and
therefore treated as absent), a failed generation attempt writes nothing:
the disk is unchanged and the error is only logged. -/
theorem no_write_when_no_prior_snapshot (env : GenEnv) (disk : DiskState)
    (nowIso nowHM : String) (api : Except String JSON) (msg : String)
    (hload : load_data disk = none)
    (hfail : genAttempt nowIso nowHM api none = .error msg) :
    (runGeneration env disk nowIso nowHM api).1 = disk ∧
    (generate_market_data env none nowIso nowHM api = .noClient ∨
     generate_market_data env none nowIso nowHM api = .failedNoWrite msg) := by
  cases hc : get_api_client env with
  | none =>
    refine ⟨?_, Or.inl ?_⟩
    · simp [runGeneration, generate_market_data, hc, hload, applyOutcome]
    · simp [generate_market_data, hc]
  | some k =>
    refine ⟨?_, Or.inr ?_⟩
    · simp [runGeneration, generate_market_data, hc, hload, hfail, handleFailure,
        applyOutcome]
    · simp [generate_market_data, hc, hfail, handleFailure]

theorem no_write_when_no_prior_snapshot_witness :
    (runGeneration ⟨some "k", none⟩ (.invalid "garbage") "T" "09:00"
        (.error "boom")).1 = .invalid "garbage" ∧
    (generate_market_data ⟨some "k", none⟩ none "T" "09:00" (.error "boom")
        = .noClient ∨
     generate_market_data ⟨some "k", none⟩ none "T" "09:00" (.error "boom")
        = .failedNoWrite "boom") :=
  no_write_when_no_prior_snapshot ⟨some "k", none⟩ (.invalid "garbage") "T" "09:00"
    (.error "boom") "boom" rfl rfl

/-- C7: with neither accepted credential variable set, `get_api_client`
yields no client and the generation attempt returns right after logging:
whatever the external service would have answered, the outcome is
`noClient` and the disk is untouched — no request is ever consumed. -/
theorem no_credentials_no_network_call (env : GenEnv)
    (h1 : env.geminiKey = none) (h2 : env.googleKey = none) :
    get_api_client env = none ∧
    ∀ (disk : DiskState) (nowIso nowHM : String) (api : Except String JSON),
      runGeneration env disk nowIso nowHM api = (disk, .noClient) := by
  have hc : get_api_client env = none := by
    simp [get_api_client, pyOrEnv, envStrTruthy, h1, h2]
  refine ⟨hc, fun disk nowIso nowHM api => ?_⟩
  simp [runGeneration, generate_market_data, hc, applyOutcome]

theorem no_credentials_no_network_call_witness :
    get_api_client ⟨none, none⟩ = none ∧
    runGeneration ⟨none, none⟩ (.valid (.obj [("livewire", .arr [])])) "T" "09:00"
        (.ok (.obj [])) = (.valid (.obj [("livewire", .arr [])]), .noClient) ∧
    runGeneration ⟨none, none⟩ .absent "T" "09:00" (.error "boom")
      = (.absent, .noClient) :=
  ⟨(no_credentials_no_network_call ⟨none, none⟩ rfl rfl).1,
   (no_credentials_no_network_call ⟨none, none⟩ rfl rfl).2
     (.valid (.obj [("livewire", .arr [])])) "T" "09:00" (.ok (.obj [])),
   (no_credentials_no_network_call ⟨none, none⟩ rfl rfl).2 .absent "T" "09:00"
     (.error "boom")⟩

/-- C10: when no API client can be constructed (credential variables unset
or empty), the data file is left entirely unchanged even when a prior
snapshot exists: nothing is written and the status fields are not updated
to record the configuration failure. -/
theorem no_client_leaves_disk_unchanged (env : GenEnv) (doc : JSON)
    (nowIso nowHM : String) (api : Except String JSON)
    (h : get_api_client env = none) :
    runGeneration env (.valid doc) nowIso nowHM api = (.valid doc, .noClient) := by
  simp [runGeneration, generate_market_data, h, applyOutcome]

theorem no_client_leaves_disk_unchanged_witness :
    runGeneration ⟨some "", none⟩
        (.valid (.obj [("briefings", .obj [("global", .obj [("title", .str "X")])])]))
        "T" "09:00" (.error "boom")
      = (.valid (.obj [("briefings", .obj [("global", .obj [("title", .str "X")])])]),
         .noClient) :=
  no_client_leaves_disk_unchanged ⟨some "", none⟩
    (.obj [("briefings", .obj [("global", .obj [("title", .str "X")])])]) "T" "09:00"
    (.error "boom") rfl

/-- C8: `GET /data.json` answers 404 with a JSON body carrying
`missing_file: true`, the checked path and a remediation hint when the
snapshot file does not exist; when the file exists (parseable or not) it is
served with `Cache-Control: no-cache, no-store, must-revalidate`. -/
theorem data_route_missing_and_caching :
    (∀ cwd : String,
        (dataRoute .absent cwd).status = 404 ∧
        bodyField (dataRoute .absent cwd) "missing_file" = some (.bool true) ∧
        bodyField (dataRoute .absent cwd) "path_checked"
          = some (.str (pathJoin cwd "data.json")) ∧
        bodyField (dataRoute .absent cwd) "suggestion"
          = some (.str "Wait for backend_worker.py to generate the initial snapshot.") ∧
        bodyField (dataRoute .absent cwd) "error"
          = some (.str "Data file not found on server")) ∧
    (∀ (doc : JSON) (cwd : String),
        (dataRoute (.valid doc) cwd).status = 200 ∧
        headerValue (dataRoute (.valid doc) cwd) "Cache-Control"
          = some "no-cache, no-store, must-revalidate" ∧
        (dataRoute (.valid doc) cwd).body = .fileBody (.valid doc)) ∧
    (∀ (raw cwd : String),
        (dataRoute (.invalid raw) cwd).status = 200 ∧
        headerValue (dataRoute (.invalid raw) cwd) "Cache-Control"
          = some "no-cache, no-store, must-revalidate") :=
  ⟨fun cwd => ⟨rfl, rfl, rfl, rfl, rfl⟩,
   fun doc cwd => ⟨rfl, rfl, rfl⟩,
   fun raw cwd => ⟨rfl, rfl⟩⟩

theorem data_route_missing_and_caching_witness :
    (dataRoute .absent "app").status = 404 ∧
    bodyField (dataRoute .absent "app") "missing_file" = some (.bool true) ∧
    headerValue (dataRoute (.valid (.obj [])) "app") "Cache-Control"
      = some "no-cache, no-store, must-revalidate" :=
  ⟨(data_route_missing_and_caching.1 "app").1,
   (data_route_missing_and_caching.1 "app").2.1,
   (data_route_missing_and_caching.2.1 (.obj []) "app").2.1⟩
